import Mathlib

/-!
Shallow embedding of the Google Cloud sample snippets in this repository
(Model Armor, Parameter Manager, Compute disk consistency groups).

Each Go sample is a straight-line effectful function: create a client
(possibly with an explicit regional endpoint), build one typed request,
invoke remote procedures, write a confirmation. We embed each sample as a
pure Lean function from an environment — the outcomes the remote side would
produce for each call the sample can make — to an `Outcome` record that
captures everything observable about one run: the returned value, the
returned error, the bytes written to the io.Writer argument, the bytes
printed to standard output, the endpoint passed to the client constructor
(none when the sample passes no endpoint option), the ordered trace of
remote invocations issued, and whether the client was closed before return.

Protobuf messages are embedded as structures holding exactly the fields the
samples read or write; maps are association lists. Go errors are a message
string; `fmt.Errorf` with `%v` or `%w` both render as prefix ++ message.
-/

namespace GolangSamples

/-- Go error value, identified by its rendered message. -/
structure GoErr where
  msg : String
deriving DecidableEq

/-- modelarmorpb.ByteDataItem_ByteDataType: type tag of a byte data item. -/
inductive ByteDataType where
  | byteDataTypeUnspecified
  | plaintextUtf8
  | pdf
deriving DecidableEq

/-- modelarmorpb.DataItem: oneof of raw text and a typed byte item. -/
inductive DataItem where
  | text (s : String)
  | byteItem (ty : ByteDataType) (data : String)
deriving DecidableEq

/-- modelarmorpb.Template, restricted to the fields the embedded samples
read or write: the resource name and the labels map. -/
structure Template where
  name : String
  labels : List (String × String)
deriving DecidableEq

/-- google.protobuf.FieldMask. -/
structure FieldMask where
  paths : List String
deriving DecidableEq

/-- modelarmorpb.SanitizeUserPromptRequest. -/
structure SanitizeUserPromptRequest where
  name : String
  userPromptData : DataItem
deriving DecidableEq

/-- modelarmorpb.SanitizeModelResponseRequest. -/
structure SanitizeModelResponseRequest where
  name : String
  modelResponseData : DataItem
deriving DecidableEq

/-- modelarmorpb.SanitizeUserPromptResponse, kept abstract: the samples only
pass it through and print its rendering, held here in `rendered`. -/
structure SanitizeUserPromptResponse where
  rendered : String
deriving DecidableEq

/-- modelarmorpb.SanitizeModelResponseResponse, kept abstract as above. -/
structure SanitizeModelResponseResponse where
  rendered : String
deriving DecidableEq

/-- modelarmorpb.ListTemplatesRequest: parent collection and filter string
(empty string is the proto3 zero value, meaning no filter). -/
structure ListTemplatesRequest where
  parent : String
  filter : String
deriving DecidableEq

/-- modelarmorpb.UpdateTemplateRequest. -/
structure UpdateTemplateRequest where
  template : Template
  updateMask : FieldMask
deriving DecidableEq

/-- modelarmorpb.DeleteTemplateRequest. -/
structure DeleteTemplateRequest where
  name : String
deriving DecidableEq

/-- parametermanagerpb.ParameterFormat enum. -/
inductive ParameterFormat where
  | parameterFormatUnspecified
  | unformatted
  | yaml
  | json
deriving DecidableEq

/-- parametermanagerpb.Parameter, restricted to the fields the sample reads
or writes: resource name and format. The Go literal &Parameter\x7b\x7d has both
at their proto3 zero values. -/
structure Parameter where
  name : String
  format : ParameterFormat
deriving DecidableEq

/-- parametermanagerpb.CreateParameterRequest. -/
structure CreateParameterRequest where
  parent : String
  parameterId : String
  parameter : Parameter
deriving DecidableEq

/-- computepb.AddResourcePoliciesRegionDiskRequest, with the nested
RegionDisksAddResourcePoliciesRequest flattened to its ResourcePolicies
list, the only field the sample sets in it. -/
structure AddResourcePoliciesRegionDiskRequest where
  project : String
  disk : String
  resourcePolicies : List String
  region : String
deriving DecidableEq

/-- One remote invocation issued by a sample, tagged with the request it
carried. waitOperation is the poll issued by op.Wait on the long-running
compute operation. -/
inductive RemoteCall where
  | sanitizeUserPrompt (req : SanitizeUserPromptRequest)
  | sanitizeModelResponse (req : SanitizeModelResponseRequest)
  | listTemplates (req : ListTemplatesRequest)
  | updateTemplate (req : UpdateTemplateRequest)
  | deleteTemplate (req : DeleteTemplateRequest)
  | createParameter (req : CreateParameterRequest)
  | addResourcePolicies (req : AddResourcePoliciesRegionDiskRequest)
  | waitOperation
deriving DecidableEq

/-- Everything observable about one run of a sample function: returned
value, returned error, bytes written to the io.Writer, bytes printed to
standard output, endpoint handed to the client constructor (none when the
sample passes no endpoint option), ordered trace of remote invocations, and
whether the client was closed before return. -/
structure Outcome (α : Type) where
  res : α
  err : Option GoErr
  output : String
  stdout : String
  endpoint : Option String
  calls : List RemoteCall
  closed : Bool
deriving DecidableEq

/-- The regional Model Armor endpoint string every Model Armor sample
builds: fmt.Sprintf with the location spliced into the host name. -/
def modelArmorEndpoint (location : String) : String :=
  "modelarmor." ++ location ++ ".rep.googleapis.com:443"

/-- Environment for a sample that creates one client and issues one remote
call returning ρ: the client constructor outcome and the remote call
outcome. -/
structure OneCallEnv (ρ : Type) where
  clientErr : Option GoErr
  rpc : Except GoErr ρ

/-- Embedding of sanitizeUserPrompt (src/modelarmor/sanitize_user_prompt.go).
Builds the regional endpoint, creates the client, wraps a creation failure
as "failed to create client: ...", builds a SanitizeUserPromptRequest with
the templates resource name and text data item, issues the call, wraps a
failure as "failed to sanitize user prompt: ...", and on success prints the
sanitization result to standard output. -/
def sanitizeUserPrompt (env : OneCallEnv SanitizeUserPromptResponse)
    (projectID locationID templateID userPrompt : String) :
    Outcome (Option SanitizeUserPromptResponse) :=
  let endpoint := modelArmorEndpoint locationID
  match env.clientErr with
  | some e =>
      ⟨none, some ⟨"failed to create client: " ++ e.msg⟩, "", "", some endpoint, [], false⟩
  | none =>
      let req : SanitizeUserPromptRequest :=
        ⟨"projects/" ++ projectID ++ "/locations/" ++ locationID ++ "/templates/" ++ templateID,
         DataItem.text userPrompt⟩
      match env.rpc with
      | Except.error e =>
          ⟨none, some ⟨"failed to sanitize user prompt: " ++ e.msg⟩, "", "",
           some endpoint, [RemoteCall.sanitizeUserPrompt req], true⟩
      | Except.ok response =>
          ⟨some response, none, "", "Sanitization Result: " ++ response.rendered ++ "\n",
           some endpoint, [RemoteCall.sanitizeUserPrompt req], true⟩

/-- Embedding of sanitizeModelResponse
(src/modelarmor/sanitize_model_response.go), identical in shape to
sanitizeUserPrompt with its own request message and error description
"failed to sanitize model response: ...". -/
def sanitizeModelResponse (env : OneCallEnv SanitizeModelResponseResponse)
    (projectID locationID templateID modelResponse : String) :
    Outcome (Option SanitizeModelResponseResponse) :=
  let endpoint := modelArmorEndpoint locationID
  match env.clientErr with
  | some e =>
      ⟨none, some ⟨"failed to create client: " ++ e.msg⟩, "", "", some endpoint, [], false⟩
  | none =>
      let req : SanitizeModelResponseRequest :=
        ⟨"projects/" ++ projectID ++ "/locations/" ++ locationID ++ "/templates/" ++ templateID,
         DataItem.text modelResponse⟩
      match env.rpc with
      | Except.error e =>
          ⟨none, some ⟨"failed to sanitize model response: " ++ e.msg⟩, "", "",
           some endpoint, [RemoteCall.sanitizeModelResponse req], true⟩
      | Except.ok response =>
          ⟨some response, none, "", "Sanitization Result: " ++ response.rendered ++ "\n",
           some endpoint, [RemoteCall.sanitizeModelResponse req], true⟩

/-- Environment for the listing samples: the client constructor outcome,
the templates the iterator yields in order, and how the iterator ends after
yielding them — none for iterator.Done, some e for an error from Next. -/
structure ListEnv where
  clientErr : Option GoErr
  items : List Template
  stop : Option GoErr

/-- Result of the iteration loop in listModelArmorTemplates: bytes written
to the writer during the loop, templates appended in order, and the wrapped
error when Next failed. -/
structure ListLoopResult where
  written : String
  collected : List Template
  iterErr : Option GoErr
deriving DecidableEq

/-- The for loop of listModelArmorTemplates: each yielded template is
appended and its "Template: ...\n" line written; iterator.Done breaks the
loop; any other Next error is wrapped as "failed to iterate templates: ..."
and ends the run. -/
def listTemplatesLoop : List Template → Option GoErr → ListLoopResult
  | [], none => ⟨"", [], none⟩
  | [], some e => ⟨"", [], some ⟨"failed to iterate templates: " ++ e.msg⟩⟩
  | t :: ts, stop =>
      let r := listTemplatesLoop ts stop
      ⟨"Template: " ++ t.name ++ "\n" ++ r.written, t :: r.collected, r.iterErr⟩

/-- Embedding of listModelArmorTemplates (src/modelarmor/list_templates.go).
Creates the client on the regional endpoint, issues ListTemplates with the
projects/locations parent and no filter, runs the iteration loop, and on an
iteration error returns a nil slice and the wrapped error — the lines
already written to the writer stay written. -/
def listModelArmorTemplates (env : ListEnv) (projectID location : String) :
    Outcome (Option (List Template)) :=
  let endpoint := modelArmorEndpoint location
  match env.clientErr with
  | some e =>
      ⟨none, some ⟨"failed to create client: " ++ e.msg⟩, "", "", some endpoint, [], false⟩
  | none =>
      let req : ListTemplatesRequest :=
        ⟨"projects/" ++ projectID ++ "/locations/" ++ location, ""⟩
      let r := listTemplatesLoop env.items env.stop
      match r.iterErr with
      | some e =>
          ⟨none, some e, r.written, "", some endpoint, [RemoteCall.listTemplates req], true⟩
      | none =>
          ⟨some r.collected, none, r.written, "", some endpoint,
           [RemoteCall.listTemplates req], true⟩

/-- Result of the iteration loop in listModelArmorTemplatesWithFilter:
template names appended in order and the wrapped error when Next failed.
This loop writes nothing; the single Fprintf happens after it. -/
structure FilterLoopResult where
  names : List String
  iterErr : Option GoErr
deriving DecidableEq

/-- The for loop of listModelArmorTemplatesWithFilter: collects names,
wraps a Next error as "failed to iterate templates: ...". -/
def listFilterLoop : List Template → Option GoErr → FilterLoopResult
  | [], none => ⟨[], none⟩
  | [], some e => ⟨[], some ⟨"failed to iterate templates: " ++ e.msg⟩⟩
  | t :: ts, stop =>
      let r := listFilterLoop ts stop
      ⟨t.name :: r.names, r.iterErr⟩

/-- Embedding of listModelArmorTemplatesWithFilter (src/unnamed/part_003).
Same client and parent as the plain listing, with a name equality filter;
collects the names, and only after the loop succeeds writes the single
"Templates Found: ..." line joining the names with ", ". -/
def listModelArmorTemplatesWithFilter (env : ListEnv)
    (projectID locationID templateID : String) :
    Outcome (Option (List String)) :=
  let endpoint := modelArmorEndpoint locationID
  match env.clientErr with
  | some e =>
      ⟨none, some ⟨"failed to create client: " ++ e.msg⟩, "", "", some endpoint, [], false⟩
  | none =>
      let parent := "projects/" ++ projectID ++ "/locations/" ++ locationID
      let req : ListTemplatesRequest :=
        ⟨parent, "name=\"" ++ parent ++ "/templates/" ++ templateID ++ "\""⟩
      let r := listFilterLoop env.items env.stop
      match r.iterErr with
      | some e =>
          ⟨none, some e, "", "", some endpoint, [RemoteCall.listTemplates req], true⟩
      | none =>
          ⟨some r.names, none,
           "Templates Found: " ++ String.intercalate ", " r.names ++ "\n", "",
           some endpoint, [RemoteCall.listTemplates req], true⟩

/-- Embedding of createParam (src/parametermanager/create_param.go).
Creates the Parameter Manager client with no endpoint option, hardcodes the
parent location to global, sends an empty Parameter message, wraps failures
as "failed to create Parameter Manager client: ..." and "failed to create
parameter: ...", and on success writes the confirmation with the returned
parameter name. The Go function returns only an error, so res is Unit. -/
def createParam (env : OneCallEnv Parameter) (projectID parameterID : String) :
    Outcome Unit :=
  match env.clientErr with
  | some e =>
      ⟨(), some ⟨"failed to create Parameter Manager client: " ++ e.msg⟩, "", "",
       none, [], false⟩
  | none =>
      let parent := "projects/" ++ projectID ++ "/locations/global"
      let req : CreateParameterRequest :=
        ⟨parent, parameterID, ⟨"", ParameterFormat.parameterFormatUnspecified⟩⟩
      match env.rpc with
      | Except.error e =>
          ⟨(), some ⟨"failed to create parameter: " ++ e.msg⟩, "", "",
           none, [RemoteCall.createParameter req], true⟩
      | Except.ok parameter =>
          ⟨(), none, "Created parameter: " ++ parameter.name ++ "\n", "",
           none, [RemoteCall.createParameter req], true⟩

/-- Environment for addDiskConsistencyGroup: the client constructor
outcome, the AddResourcePolicies outcome (the operation it returns carries
no data the sample reads), and the outcome of waiting on that operation. -/
structure AddDiskEnv where
  clientErr : Option GoErr
  addRpc : Except GoErr Unit
  waitErr : Option GoErr

/-- Embedding of addDiskConsistencyGroup (src/unnamed/part_001). Creates a
region disks client with no endpoint option, builds the request carrying
the consistency group resource policy URL, issues AddResourcePolicies, then
waits on the returned operation — a second remote invocation — and only
after the wait succeeds writes "Disk added\n". Failures are wrapped as
"NewResourcePoliciesRESTClient: ...", "unable to add disk: ..." and
"unable to wait for the operation: ...". -/
def addDiskConsistencyGroup (env : AddDiskEnv)
    (projectID region groupName diskName : String) : Outcome Unit :=
  match env.clientErr with
  | some e =>
      ⟨(), some ⟨"NewResourcePoliciesRESTClient: " ++ e.msg⟩, "", "", none, [], false⟩
  | none =>
      let consistencyGroupUrl :=
        "projects/" ++ projectID ++ "/regions/" ++ region ++ "/resourcePolicies/" ++ groupName
      let req : AddResourcePoliciesRegionDiskRequest :=
        ⟨projectID, diskName, [consistencyGroupUrl], region⟩
      match env.addRpc with
      | Except.error e =>
          ⟨(), some ⟨"unable to add disk: " ++ e.msg⟩, "", "", none,
           [RemoteCall.addResourcePolicies req], true⟩
      | Except.ok _ =>
          match env.waitErr with
          | some e =>
              ⟨(), some ⟨"unable to wait for the operation: " ++ e.msg⟩, "", "", none,
               [RemoteCall.addResourcePolicies req, RemoteCall.waitOperation], true⟩
          | none =>
              ⟨(), none, "Disk added\n", "", none,
               [RemoteCall.addResourcePolicies req, RemoteCall.waitOperation], true⟩

/-- Embedding of updateModelArmorTemplateLabels (src/unnamed/part_004).
Creates the client on the regional endpoint, builds a Template carrying
only the resource name and the new labels, an update mask whose paths list
is exactly ["labels"], issues UpdateTemplate, wraps a failure as "failed to
update template: ...", and on success writes the confirmation with the
returned template name. -/
def updateModelArmorTemplateLabels (env : OneCallEnv Template)
    (projectID locationID templateID : String) (labels : List (String × String)) :
    Outcome (Option Template) :=
  let endpoint := modelArmorEndpoint locationID
  match env.clientErr with
  | some e =>
      ⟨none, some ⟨"failed to create client: " ++ e.msg⟩, "", "", some endpoint, [], false⟩
  | none =>
      let template : Template :=
        ⟨"projects/" ++ projectID ++ "/locations/" ++ locationID ++ "/templates/" ++ templateID,
         labels⟩
      let updateMask : FieldMask := ⟨["labels"]⟩
      let req : UpdateTemplateRequest := ⟨template, updateMask⟩
      match env.rpc with
      | Except.error e =>
          ⟨none, some ⟨"failed to update template: " ++ e.msg⟩, "", "",
           some endpoint, [RemoteCall.updateTemplate req], true⟩
      | Except.ok response =>
          ⟨some response, none,
           "Updated Model Armor Template Labels: " ++ response.name ++ "\n", "",
           some endpoint, [RemoteCall.updateTemplate req], true⟩

/-- gRPC status code NotFound. -/
def notFoundCode : Nat := 5

/-- A Go error as seen by the cleanup helper: either an error carrying a
gRPC status (code and message) or a plain non-status error. -/
inductive GoTestError where
  | grpcStatus (code : Nat) (msg : String)
  | plain (msg : String)
deriving DecidableEq

/-- grpcstatus.FromError: returns the status code and whether the error
carried a gRPC status. A non-status error reports code Unknown (2) with ok
false, as the grpc-go library does. -/
def grpcStatusFromError : GoTestError → Nat × Bool
  | GoTestError.grpcStatus code _ => (code, true)
  | GoTestError.plain _ => (2, false)

/-- Outcome of the testCleanupTemplate helper: whether it aborted the test
via t.Fatalf, and the remote calls it issued. -/
structure CleanupOutcome where
  fatal : Bool
  calls : List RemoteCall
deriving DecidableEq

/-- Environment for testCleanupTemplate: the client constructor outcome
(testClient aborts the test itself when creation fails) and the
DeleteTemplate outcome, none meaning success. -/
structure CleanupEnv where
  clientErr : Option GoErr
  deleteErr : Option GoTestError

/-- Embedding of testCleanupTemplate (src/modelarmor/modelarmor_test.go).
Issues DeleteTemplate on the given name; on an error it consults
grpcstatus.FromError and calls t.Fatalf unless the error carried a gRPC
status whose code is NotFound, which is ignored as the template being
already deleted. -/
def testCleanupTemplate (env : CleanupEnv) (templateName : String) : CleanupOutcome :=
  match env.clientErr with
  | some _ => ⟨true, []⟩
  | none =>
      let req : DeleteTemplateRequest := ⟨templateName⟩
      match env.deleteErr with
      | none => ⟨false, [RemoteCall.deleteTemplate req]⟩
      | some err =>
          let r := grpcStatusFromError err
          if !r.2 || r.1 ≠ notFoundCode then ⟨true, [RemoteCall.deleteTemplate req]⟩
          else ⟨false, [RemoteCall.deleteTemplate req]⟩

/-- Spec-side rendering of the listing output: one "Template: ...\n" line
per template, in order. -/
def templateLines : List Template → String
  | [] => ""
  | t :: ts => "Template: " ++ t.name ++ "\n" ++ templateLines ts

/-- Spec-side predicate: the error carries a gRPC status whose code is
NotFound. -/
def isNotFoundStatus : GoTestError → Bool
  | GoTestError.grpcStatus code _ => code == notFoundCode
  | GoTestError.plain _ => false

theorem listTemplatesLoop_written (items : List Template) (stop : Option GoErr) :
    (listTemplatesLoop items stop).written = templateLines items := by
  induction items with
  | nil => cases stop <;> rfl
  | cons t ts ih => simp [listTemplatesLoop, templateLines, ih]

theorem listTemplatesLoop_collected (items : List Template) (stop : Option GoErr) :
    (listTemplatesLoop items stop).collected = items := by
  induction items with
  | nil => cases stop <;> rfl
  | cons t ts ih => simp [listTemplatesLoop, ih]

theorem listTemplatesLoop_iterErr (items : List Template) (stop : Option GoErr) :
    (listTemplatesLoop items stop).iterErr =
      stop.map fun e => ⟨"failed to iterate templates: " ++ e.msg⟩ := by
  induction items with
  | nil => cases stop <;> rfl
  | cons t ts ih => simp [listTemplatesLoop, ih]

theorem listFilterLoop_names (items : List Template) (stop : Option GoErr) :
    (listFilterLoop items stop).names = items.map Template.name := by
  induction items with
  | nil => cases stop <;> rfl
  | cons t ts ih => simp [listFilterLoop, ih]

theorem listFilterLoop_iterErr (items : List Template) (stop : Option GoErr) :
    (listFilterLoop items stop).iterErr =
      stop.map fun e => ⟨"failed to iterate templates: " ++ e.msg⟩ := by
  induction items with
  | nil => cases stop <;> rfl
  | cons t ts ih => simp [listFilterLoop, ih]

/-- Claim C4: listModelArmorTemplates drains the iterator to Done; on a
successful run it writes exactly one "Template: ...\n" line per yielded
template, in iterator order, and returns exactly those templates with a nil
error; with zero templates it writes nothing and returns an empty result
with a nil error. -/
theorem C4_list_templates_success (projectID location : String) (items : List Template) :
    (let o := listModelArmorTemplates ⟨none, items, none⟩ projectID location
     o.res = some items ∧ o.err = none ∧ o.output = templateLines items)
    ∧ (let o := listModelArmorTemplates ⟨none, [], none⟩ projectID location
       o.res = some [] ∧ o.err = none ∧ o.output = "") := by
  refine ⟨?_, ?_⟩ <;>
    simp [listModelArmorTemplates, listTemplatesLoop_iterErr,
      listTemplatesLoop_written, listTemplatesLoop_collected, templateLines]

/-- Claim C1: in every embedded sample, when a remote call fails the
function returns the remote error wrapped with a short description, a nil
result where one is returned, and the trace shows the failed call was
issued exactly once — never retried. The conjunction covers the remote
failure point of each embedded sample, including both remote steps of
addDiskConsistencyGroup and the iterator failure of the listing samples. -/
theorem C1_remote_error_wrapped_no_retry (e : GoErr)
    (projectID locationID templateID userPrompt modelResponse parameterID
      region groupName diskName : String)
    (labels : List (String × String)) (items : List Template) :
    (let o := sanitizeUserPrompt ⟨none, Except.error e⟩ projectID locationID templateID userPrompt
     o.res = none ∧ o.err = some ⟨"failed to sanitize user prompt: " ++ e.msg⟩ ∧ o.calls.length = 1)
    ∧ (let o := sanitizeModelResponse ⟨none, Except.error e⟩ projectID locationID templateID modelResponse
       o.res = none ∧ o.err = some ⟨"failed to sanitize model response: " ++ e.msg⟩ ∧ o.calls.length = 1)
    ∧ (let o := createParam ⟨none, Except.error e⟩ projectID parameterID
       o.err = some ⟨"failed to create parameter: " ++ e.msg⟩ ∧ o.calls.length = 1)
    ∧ (let o := updateModelArmorTemplateLabels ⟨none, Except.error e⟩ projectID locationID templateID labels
       o.res = none ∧ o.err = some ⟨"failed to update template: " ++ e.msg⟩ ∧ o.calls.length = 1)
    ∧ (let o := addDiskConsistencyGroup ⟨none, Except.error e, none⟩ projectID region groupName diskName
       o.err = some ⟨"unable to add disk: " ++ e.msg⟩ ∧ o.calls.length = 1)
    ∧ (let o := addDiskConsistencyGroup ⟨none, Except.ok (), some e⟩ projectID region groupName diskName
       o.err = some ⟨"unable to wait for the operation: " ++ e.msg⟩ ∧ o.calls.length = 2)
    ∧ (let o := listModelArmorTemplates ⟨none, items, some e⟩ projectID locationID
       o.res = none ∧ o.err = some ⟨"failed to iterate templates: " ++ e.msg⟩ ∧ o.calls.length = 1)
    ∧ (let o := listModelArmorTemplatesWithFilter ⟨none, items, some e⟩ projectID locationID templateID
       o.res = none ∧ o.err = some ⟨"failed to iterate templates: " ++ e.msg⟩ ∧ o.calls.length = 1) := by
  refine ⟨⟨rfl, rfl, rfl⟩, ⟨rfl, rfl, rfl⟩, ⟨rfl, rfl⟩, ⟨rfl, rfl, rfl⟩,
    ⟨rfl, rfl⟩, ⟨rfl, rfl⟩, ?_, ?_⟩
  · simp [listModelArmorTemplates, listTemplatesLoop_iterErr]
  · simp [listModelArmorTemplatesWithFilter, listFilterLoop_iterErr]

/-- Claim C2 counterexample: the claim asserts that every sample builds the
client endpoint URL from the project and location, but createParam passes
no endpoint option at all to the Parameter Manager client constructor — at
the concrete input shown, the endpoint handed to the constructor is none
(the library default), not a URL built from the project or location. -/
theorem C2_counterexample :
    (createParam ⟨none, Except.ok ⟨"", ParameterFormat.parameterFormatUnspecified⟩⟩
        "my-project" "my-parameter").endpoint = none := rfl

/-- Claim C2 amended: every Model Armor sample passes to the client
constructor exactly the endpoint "modelarmor.<location>.rep.googleapis.com:443",
a function of the location argument alone, for every location string; the
Parameter Manager and Compute samples pass no explicit endpoint. -/
theorem C2_amended_model_armor_endpoint (e : Option GoErr)
    (rsu : Except GoErr SanitizeUserPromptResponse)
    (rsm : Except GoErr SanitizeModelResponseResponse)
    (rt : Except GoErr Template) (rp : Except GoErr Parameter)
    (ra : Except GoErr Unit) (we : Option GoErr)
    (projectID location templateID userPrompt modelResponse parameterID
      region groupName diskName : String)
    (labels : List (String × String)) (items : List Template) (stop : Option GoErr) :
    ((sanitizeUserPrompt ⟨e, rsu⟩ projectID location templateID userPrompt).endpoint =
      some ("modelarmor." ++ location ++ ".rep.googleapis.com:443"))
    ∧ ((sanitizeModelResponse ⟨e, rsm⟩ projectID location templateID modelResponse).endpoint =
      some ("modelarmor." ++ location ++ ".rep.googleapis.com:443"))
    ∧ ((listModelArmorTemplates ⟨e, items, stop⟩ projectID location).endpoint =
      some ("modelarmor." ++ location ++ ".rep.googleapis.com:443"))
    ∧ ((listModelArmorTemplatesWithFilter ⟨e, items, stop⟩ projectID location templateID).endpoint =
      some ("modelarmor." ++ location ++ ".rep.googleapis.com:443"))
    ∧ ((updateModelArmorTemplateLabels ⟨e, rt⟩ projectID location templateID labels).endpoint =
      some ("modelarmor." ++ location ++ ".rep.googleapis.com:443"))
    ∧ ((createParam ⟨e, rp⟩ projectID parameterID).endpoint = none)
    ∧ ((addDiskConsistencyGroup ⟨e, ra, we⟩ projectID region groupName diskName).endpoint = none) := by
  refine ⟨?_, ?_, ?_, ?_, ?_, ?_, ?_⟩
  · cases e <;> cases rsu <;> rfl
  · cases e <;> cases rsm <;> rfl
  · cases e with
    | some _ => rfl
    | none => cases h : (listTemplatesLoop items stop).iterErr <;>
        simp [listModelArmorTemplates, h, modelArmorEndpoint]
  · cases e with
    | some _ => rfl
    | none => cases h : (listFilterLoop items stop).iterErr <;>
        simp [listModelArmorTemplatesWithFilter, h, modelArmorEndpoint]
  · cases e <;> cases rt <;> rfl
  · cases e <;> cases rp <;> rfl
  · cases e <;> cases ra <;> cases we <;> rfl

/-- Claim C3 counterexample: the claim asserts no sample issues more than
one remote invocation per call, but a successful run of
addDiskConsistencyGroup issues two — the AddResourcePolicies call and the
wait poll on the operation it returns. -/
theorem C3_counterexample :
    (let o := addDiskConsistencyGroup ⟨none, Except.ok (), none⟩
        "my-project" "europe-west4" "my-group" "my-disk"
     o.calls.length = 2 ∧
       o.calls = [RemoteCall.addResourcePolicies ⟨"my-project", "my-disk",
           ["projects/my-project/regions/europe-west4/resourcePolicies/my-group"],
           "europe-west4"⟩,
         RemoteCall.waitOperation]) := ⟨rfl, rfl⟩

/-- Claim C3 amended: every sample constructs one client and builds one
request, and issues exactly one remote procedure invocation once the client
is created (none when client creation fails) — except
addDiskConsistencyGroup, which after a successful AddResourcePolicies call
additionally waits on the returned operation, for two remote invocations. -/
theorem C3_amended_call_counts (e : GoErr)
    (rsu : Except GoErr SanitizeUserPromptResponse)
    (rsm : Except GoErr SanitizeModelResponseResponse)
    (rt : Except GoErr Template) (rp : Except GoErr Parameter)
    (we : Option GoErr)
    (projectID locationID templateID userPrompt modelResponse parameterID
      region groupName diskName : String)
    (labels : List (String × String)) (items : List Template) (stop : Option GoErr) :
    ((sanitizeUserPrompt ⟨none, rsu⟩ projectID locationID templateID userPrompt).calls.length = 1)
    ∧ ((sanitizeUserPrompt ⟨some e, rsu⟩ projectID locationID templateID userPrompt).calls.length = 0)
    ∧ ((sanitizeModelResponse ⟨none, rsm⟩ projectID locationID templateID modelResponse).calls.length = 1)
    ∧ ((sanitizeModelResponse ⟨some e, rsm⟩ projectID locationID templateID modelResponse).calls.length = 0)
    ∧ ((listModelArmorTemplates ⟨none, items, stop⟩ projectID locationID).calls.length = 1)
    ∧ ((listModelArmorTemplates ⟨some e, items, stop⟩ projectID locationID).calls.length = 0)
    ∧ ((listModelArmorTemplatesWithFilter ⟨none, items, stop⟩ projectID locationID templateID).calls.length = 1)
    ∧ ((listModelArmorTemplatesWithFilter ⟨some e, items, stop⟩ projectID locationID templateID).calls.length = 0)
    ∧ ((createParam ⟨none, rp⟩ projectID parameterID).calls.length = 1)
    ∧ ((createParam ⟨some e, rp⟩ projectID parameterID).calls.length = 0)
    ∧ ((updateModelArmorTemplateLabels ⟨none, rt⟩ projectID locationID templateID labels).calls.length = 1)
    ∧ ((updateModelArmorTemplateLabels ⟨some e, rt⟩ projectID locationID templateID labels).calls.length = 0)
    ∧ ((addDiskConsistencyGroup ⟨some e, Except.ok (), we⟩ projectID region groupName diskName).calls.length = 0)
    ∧ ((addDiskConsistencyGroup ⟨none, Except.error e, we⟩ projectID region groupName diskName).calls.length = 1)
    ∧ ((addDiskConsistencyGroup ⟨none, Except.ok (), we⟩ projectID region groupName diskName).calls.length = 2) := by
  refine ⟨?_, rfl, ?_, rfl, ?_, rfl, ?_, rfl, ?_, rfl, ?_, rfl, rfl, rfl, ?_⟩
  · cases rsu <;> rfl
  · cases rsm <;> rfl
  · cases h : (listTemplatesLoop items stop).iterErr <;> simp [listModelArmorTemplates, h]
  · cases h : (listFilterLoop items stop).iterErr <;> simp [listModelArmorTemplatesWithFilter, h]
  · cases rp <;> rfl
  · cases rt <;> rfl
  · cases we <;> rfl

/-- Claim C5 counterexample: the claim asserts that a sample taking an
io.Writer has written nothing when it returns a non-nil error, but
listModelArmorTemplates writes one line per template as it iterates: at the
concrete input shown the iterator yields one template and then fails, the
function returns a non-nil error, and the template line is already in the
output sink. -/
theorem C5_counterexample :
    (let o := listModelArmorTemplates
        ⟨none, [⟨"projects/p/locations/l/templates/t1", []⟩], some ⟨"rpc unavailable"⟩⟩ "p" "l"
     o.err = some ⟨"failed to iterate templates: rpc unavailable"⟩ ∧
       o.output = "Template: projects/p/locations/l/templates/t1\n") := ⟨rfl, rfl⟩

/-- Claim C5 amended: when a sample taking an io.Writer returns a non-nil
error, nothing has been written to the output sink — except
listModelArmorTemplates, which writes one line per template during
iteration, so on an iterator failure it returns a non-nil error with the
lines for the already-yielded templates written; its post-loop success path
is the only one returning nil. -/
theorem C5_amended_no_output_on_error (e : GoErr)
    (rp : Except GoErr Parameter) (rt : Except GoErr Template)
    (ra : Except GoErr Unit) (we : Option GoErr)
    (projectID locationID templateID parameterID region groupName diskName : String)
    (labels : List (String × String)) (items : List Template) (stop : Option GoErr) :
    ((createParam ⟨some e, rp⟩ projectID parameterID).output = "")
    ∧ ((createParam ⟨none, Except.error e⟩ projectID parameterID).output = "")
    ∧ ((listModelArmorTemplatesWithFilter ⟨some e, items, stop⟩ projectID locationID templateID).output = "")
    ∧ ((listModelArmorTemplatesWithFilter ⟨none, items, some e⟩ projectID locationID templateID).output = "")
    ∧ ((updateModelArmorTemplateLabels ⟨some e, rt⟩ projectID locationID templateID labels).output = "")
    ∧ ((updateModelArmorTemplateLabels ⟨none, Except.error e⟩ projectID locationID templateID labels).output = "")
    ∧ ((addDiskConsistencyGroup ⟨some e, ra, we⟩ projectID region groupName diskName).output = "")
    ∧ ((addDiskConsistencyGroup ⟨none, Except.error e, we⟩ projectID region groupName diskName).output = "")
    ∧ ((addDiskConsistencyGroup ⟨none, Except.ok (), some e⟩ projectID region groupName diskName).output = "")
    ∧ ((listModelArmorTemplates ⟨some e, items, stop⟩ projectID locationID).output = "")
    ∧ (let o := listModelArmorTemplates ⟨none, items, some e⟩ projectID locationID
       o.err = some ⟨"failed to iterate templates: " ++ e.msg⟩ ∧ o.output = templateLines items) := by
  refine ⟨rfl, rfl, rfl, ?_, rfl, rfl, rfl, rfl, rfl, rfl, ?_⟩
  · simp [listModelArmorTemplatesWithFilter, listFilterLoop_iterErr]
  · simp [listModelArmorTemplates, listTemplatesLoop_iterErr, listTemplatesLoop_written]

/-- Claim C6: in every embedded sample, once the client is created
successfully it is closed before the function returns on every path — after
a failed remote call, after a failed iteration, and on the successful
return alike — and when client creation fails there is no client to close.
The call trace of each outcome is complete at return, so no client use can
follow it. -/
theorem C6_client_closed_on_every_path (e : GoErr)
    (rsu : Except GoErr SanitizeUserPromptResponse)
    (rsm : Except GoErr SanitizeModelResponseResponse)
    (rt : Except GoErr Template) (rp : Except GoErr Parameter)
    (ra : Except GoErr Unit) (we : Option GoErr)
    (projectID locationID templateID userPrompt modelResponse parameterID
      region groupName diskName : String)
    (labels : List (String × String)) (items : List Template) (stop : Option GoErr) :
    ((sanitizeUserPrompt ⟨none, rsu⟩ projectID locationID templateID userPrompt).closed = true)
    ∧ ((sanitizeUserPrompt ⟨some e, rsu⟩ projectID locationID templateID userPrompt).closed = false)
    ∧ ((sanitizeModelResponse ⟨none, rsm⟩ projectID locationID templateID modelResponse).closed = true)
    ∧ ((sanitizeModelResponse ⟨some e, rsm⟩ projectID locationID templateID modelResponse).closed = false)
    ∧ ((listModelArmorTemplates ⟨none, items, stop⟩ projectID locationID).closed = true)
    ∧ ((listModelArmorTemplates ⟨some e, items, stop⟩ projectID locationID).closed = false)
    ∧ ((listModelArmorTemplatesWithFilter ⟨none, items, stop⟩ projectID locationID templateID).closed = true)
    ∧ ((listModelArmorTemplatesWithFilter ⟨some e, items, stop⟩ projectID locationID templateID).closed = false)
    ∧ ((createParam ⟨none, rp⟩ projectID parameterID).closed = true)
    ∧ ((createParam ⟨some e, rp⟩ projectID parameterID).closed = false)
    ∧ ((updateModelArmorTemplateLabels ⟨none, rt⟩ projectID locationID templateID labels).closed = true)
    ∧ ((updateModelArmorTemplateLabels ⟨some e, rt⟩ projectID locationID templateID labels).closed = false)
    ∧ ((addDiskConsistencyGroup ⟨none, ra, we⟩ projectID region groupName diskName).closed = true)
    ∧ ((addDiskConsistencyGroup ⟨some e, ra, we⟩ projectID region groupName diskName).closed = false) := by
  refine ⟨?_, rfl, ?_, rfl, ?_, rfl, ?_, rfl, ?_, rfl, ?_, rfl, ?_, rfl⟩
  · cases rsu <;> rfl
  · cases rsm <;> rfl
  · cases h : (listTemplatesLoop items stop).iterErr <;> simp [listModelArmorTemplates, h]
  · cases h : (listFilterLoop items stop).iterErr <;> simp [listModelArmorTemplatesWithFilter, h]
  · cases rp <;> rfl
  · cases rt <;> rfl
  · cases ra <;> cases we <;> rfl

/-- Claim C7: testCleanupTemplate aborts the test on a DeleteTemplate
failure exactly when the error is not a gRPC status error with code
NotFound — a status error with code NotFound is ignored and the helper
completes normally, while any other status code or a non-status error is
fatal; a successful delete is also non-fatal. -/
theorem C7_cleanup_fatal_iff_not_notfound (templateName : String) (err : GoTestError) :
    ((testCleanupTemplate ⟨none, some err⟩ templateName).fatal = !(isNotFoundStatus err))
    ∧ ((testCleanupTemplate ⟨none, none⟩ templateName).fatal = false) := by
  refine ⟨?_, rfl⟩
  cases err with
  | grpcStatus code msg =>
      by_cases h : code = notFoundCode
      · subst h; rfl
      · simp [testCleanupTemplate, grpcStatusFromError, isNotFoundStatus, h]
  | plain msg => rfl

/-- Claim C8: for every labels map and every argument, the request
updateModelArmorTemplateLabels sends is an UpdateTemplateRequest whose
update mask holds exactly the single path "labels" and whose template
carries only the resource name and the new labels — the service is asked to
modify the labels field alone. -/
theorem C8_update_mask_is_labels_only (r : Except GoErr Template)
    (projectID locationID templateID : String) (labels : List (String × String)) :
    (updateModelArmorTemplateLabels ⟨none, r⟩ projectID locationID templateID labels).calls =
      [RemoteCall.updateTemplate
        ⟨⟨"projects/" ++ projectID ++ "/locations/" ++ locationID ++ "/templates/" ++ templateID,
          labels⟩,
         ⟨["labels"]⟩⟩] := by
  cases r <;> rfl

/-- Claim C9: for every projectID and parameterID — with no client-side
validation of either — createParam sends a CreateParameterRequest whose
parent is "projects/<projectID>/locations/global" (location hardcoded to
global), whose parameter id is the given one, and whose Parameter message
is empty: zero-value name and unspecified format. -/
theorem C9_create_param_request_shape (r : Except GoErr Parameter)
    (projectID parameterID : String) :
    (createParam ⟨none, r⟩ projectID parameterID).calls =
      [RemoteCall.createParameter
        ⟨"projects/" ++ projectID ++ "/locations/global", parameterID,
         ⟨"", ParameterFormat.parameterFormatUnspecified⟩⟩] := by
  cases r <;> rfl

end GolangSamples
